import Mathlib

set_option maxRecDepth 100000

/-!
Verification of the ClearLinux provisioner strategy
(`libmachine/provision/clearlinux.go`) against its specification.

The Go source is shallowly embedded: pure string building becomes Lean
string functions, the mutation of the provisioner struct becomes explicit
state passing, and calls to external collaborators (the SSH executor, the
runtime-version query, the sibling provisioning helpers) become explicit
parameters or oracles.
-/

namespace ClearLinux

/-! ## Data model -/

/-- The package actions of `libmachine/provision/pkgaction`:
`Install`, `Remove`, `Upgrade`, `Purge`. -/
inductive PackageAction where
  | install
  | remove
  | upgrade
  | purge
deriving DecidableEq, Repr

/-- The fields of `auth.Options` that the engine-config template reads:
the remote paths of the CA certificate, server certificate and server key. -/
structure AuthOptions where
  caCertRemotePath : String
  serverCertRemotePath : String
  serverKeyRemotePath : String
deriving DecidableEq, Repr

/-- The fields of `engine.Options` that the engine-config template reads:
labels, insecure registries, registry mirrors, arbitrary flags and
environment variables, each an ordered list of strings. -/
structure EngineOptions where
  labels : List String
  insecureRegistry : List String
  registryMirror : List String
  arbitraryFlags : List String
  env : List String
deriving DecidableEq, Repr

/-- Type `provision.DockerOptions`: the rendered configuration text together with
the remote daemon-options file path. -/
structure DockerOptions where
  engineOptions : String
  engineOptionsPath : String
deriving DecidableEq, Repr

/-- Type `swarm.Options` is an external collaborator type; the ClearLinux strategy
only stores it.  A single placeholder field models it. -/
structure SwarmOptions where
  isSwarm : Bool
deriving DecidableEq, Repr

/-- The state of a `ClearLinuxProvisioner` value that the embedded operations
read or write: the driver name (from the embedded `SystemdProvisioner`'s
driver), the auth options, the engine options, the swarm options and the
daemon-options file path. -/
structure Provisioner where
  driverName : String
  authOptions : AuthOptions
  engineOptions : EngineOptions
  swarmOptions : SwarmOptions
  daemonOptionsFile : String
deriving DecidableEq, Repr

/-! ## Package: action translation and command building -/

/-- The first `switch` of `Package`: the command fragment chosen for each
package action.  The `Remove` case of the Go `switch` has an empty body, so
the `packageAction` variable keeps its zero value, the empty string. -/
def packageActionFragment (action : PackageAction) : String :=
  match action with
  | .install => "bundle-add"
  | .upgrade => "bundle-add"
  | .remove => ""
  | .purge => "bundle-remove"

/-- The second `switch` of `Package`: the name alias, rewriting the logical
package name "docker" to the ClearLinux bundle "containers-basic". -/
def aliasPackageName (name : String) : String :=
  if name = "docker" then "containers-basic" else name

/-- The command string `Package` builds:
`fmt.Sprintf("swupd %s %s ", packageAction, name)` applied after the two
switches. -/
def packageCommand (name : String) (action : PackageAction) : String :=
  "swupd " ++ packageActionFragment action ++ " " ++ aliasPackageName name ++ " "

/-! ## Substring testing (used to state claims about rendered text) -/

/-- Predicate `startsWithB pat l` is true when `pat` is a prefix of `l`. -/
def startsWithB : List Char → List Char → Bool
  | [], _ => true
  | _ :: _, [] => false
  | p :: ps, h :: hs => p == h && startsWithB ps hs

/-- Predicate `subListB pat l` is true when `pat` occurs contiguously inside `l`. -/
def subListB (pat : List Char) : List Char → Bool
  | [] => startsWithB pat []
  | h :: hs => startsWithB pat (h :: hs) || subListB pat hs

/-- Predicate `containsSubstr needle hay` is true when `needle` occurs contiguously in
`hay`. -/
def containsSubstr (needle hay : String) : Bool :=
  subListB needle.data hay.data

/-! ## Decimal rendering of the TCP port

The template action `{{.DockerPort}}` formats the Go `int` in decimal
(`fmt` `%v` on an integer).  The embedding renders the (non-negative) port
with an explicit base-10 conversion; fuel makes the recursion structural. -/

/-- One decimal digit character: `digitChar m` for `m < 10`. -/
def decDigitChar (m : Nat) : Char :=
  Char.ofNat (48 + m)

/-- Fuel-indexed core of the decimal conversion: prepend the digits of `n`
onto `acc`, least-significant digit innermost, as Go's integer formatting
does.  With `n < fuel` the fuel never runs out. -/
def natDecimalAux : Nat → Nat → List Char → List Char
  | 0, _, acc => acc
  | fuel + 1, n, acc =>
    if n < 10 then decDigitChar (n % 10) :: acc
    else natDecimalAux fuel (n / 10) (decDigitChar (n % 10) :: acc)

/-- Decimal rendering of a natural number, as Go renders an `int`. -/
def natDecimal (n : Nat) : String :=
  String.mk (natDecimalAux (n + 1) n [])

/-- Value of a digit character. -/
def decDigitVal (c : Char) : Nat :=
  c.toNat - 48

/-- The number denoted by a most-significant-first digit string. -/
def digitsVal (l : List Char) : Nat :=
  l.foldl (fun a c => a * 10 + decDigitVal c) 0

/-! ## Go quoting of environment entries

The template action `{{ printf "%q" . }}` quotes each environment entry with
Go's double-quoted syntax (`strconv.Quote`): printable ASCII characters are
kept, the backslash, the double quote and the standard control characters are
escaped, and other characters are written as escapes. -/

/-- Left-pad a digit list to four places, as Go's `\uNNNN` escape does. -/
def padHex4 (l : List Char) : List Char :=
  List.replicate (4 - l.length) '0' ++ l

/-- Quote one character the way Go's `%q` does inside a double-quoted
string.  Non-printable characters outside the named escapes are rendered as
a `\u` escape (an approximation of Go's `\x`/`\u`/`\U` choice, which no
claim exercises). -/
def goQuoteChar (c : Char) : String :=
  if c = '\\' then "\\\\"
  else if c = '"' then "\\\""
  else if c = '\n' then "\\n"
  else if c = '\t' then "\\t"
  else if c = '\r' then "\\r"
  else if c = Char.ofNat 7 then "\\a"
  else if c = Char.ofNat 8 then "\\b"
  else if c = Char.ofNat 12 then "\\f"
  else if c = Char.ofNat 11 then "\\v"
  else if 32 ≤ c.toNat ∧ c.toNat < 127 then String.singleton c
  else "\\u" ++ String.mk (padHex4 (Nat.toDigits 16 c.toNat))

/-- Go's `%q` on a string: a double quote, each character quoted, a double
quote. -/
def goQuote (s : String) : String :=
  "\"" ++ String.join (s.data.map goQuoteChar) ++ "\""

/-! ## Runtime version comparison

`versioncmp.GreaterThanOrEqualTo` lives outside this fragment; only its
call site is in the source. -/

/-- Split a character list at every dot. -/
def splitOnDot : List Char → List (List Char)
  | [] => [[]]
  | c :: cs =>
    match splitOnDot cs with
    | [] => [[c]]
    | h :: t => if c = '.' then [] :: h :: t else (c :: h) :: t

/-- Numeric value of one dot-separated version component; a component that
is not a plain digit string counts as zero. -/
def versionPart (l : List Char) : Nat :=
  if l ≠ [] ∧ l.all Char.isDigit then digitsVal l else 0

/-- Modelled from the spec: the runtime-version comparison used to gate the
legacy subcommand ("if the installed runtime version is greater-than-or-equal
a threshold version"), as the missing `versioncmp.GreaterThanOrEqualTo`.
Dot-separated numeric components are compared left to right; a missing
component counts as zero. -/
def versionParts (s : String) : List Nat :=
  (splitOnDot s.data).map versionPart

/-- Lexicographic comparison of version component lists, missing components
reading as zero. -/
def cmpVersionLists : List Nat → List Nat → Ordering
  | [], ys => if ys.all (fun y => y == 0) then .eq else .lt
  | x :: xs, [] => if (x :: xs).all (fun y => y == 0) then .eq else .gt
  | x :: xs, y :: ys =>
    if x < y then .lt else if y < x then .gt else cmpVersionLists xs ys

/-- Modelled from the spec: `versioncmp.GreaterThanOrEqualTo v w` holds when
version `v` is at least version `w`. -/
def greaterThanOrEqualTo (v w : String) : Bool :=
  cmpVersionLists (versionParts v) (versionParts w) ≠ .lt

/-! ## GenerateDockerOptions -/

/-- The legacy start-subcommand selection of `GenerateDockerOptions`:
`arg := "daemon"`, cleared when the detected version is at least "1.12.0". -/
def daemonArg (dockerVersion : String) : String :=
  if greaterThanOrEqualTo dockerVersion "1.12.0" then "" else "daemon"

/-- Type `provision.EngineConfigContext`: the context the template is executed
against. -/
structure EngineConfigContext where
  dockerPort : Nat
  authOptions : AuthOptions
  engineOptions : EngineOptions
deriving DecidableEq, Repr

/-- Execution of the constant `engineConfigTmpl` of `GenerateDockerOptions`
on a context: the literal text with `{{.DockerPort}}` rendered in decimal,
the three auth paths substituted, the four flag lists iterated in order, and
each environment entry `%q`-quoted followed by a space. -/
def renderEngineConfig (arg : String) (ctx : EngineConfigContext) : String :=
  "[Service]\nEnvironment=TMPDIR=/var/tmp\nExecStart=\nExecStart=/usr/bin/dockerd "
  ++ arg
  ++ " --host=unix:///var/run/docker.sock --host=tcp://0.0.0.0:"
  ++ natDecimal ctx.dockerPort
  ++ " --tlsverify --tlscacert "
  ++ ctx.authOptions.caCertRemotePath
  ++ " --tlscert "
  ++ ctx.authOptions.serverCertRemotePath
  ++ " --tlskey "
  ++ ctx.authOptions.serverKeyRemotePath
  ++ String.join (ctx.engineOptions.labels.map (fun l => " --label " ++ l))
  ++ String.join (ctx.engineOptions.insecureRegistry.map (fun r => " --insecure-registry " ++ r))
  ++ String.join (ctx.engineOptions.registryMirror.map (fun m => " --registry-mirror " ++ m))
  ++ String.join (ctx.engineOptions.arbitraryFlags.map (fun f => " --" ++ f))
  ++ " \\$DOCKER_OPTS \\$DOCKER_OPT_BIP \\$DOCKER_OPT_MTU \\$DOCKER_OPT_IPMASQ\nEnvironment="
  ++ String.join (ctx.engineOptions.env.map (fun e => goQuote e ++ " "))
  ++ "\n"

/-- The provider label `fmt.Sprintf("provider=%s", DriverName())`. -/
def providerLabel (driverName : String) : String :=
  "provider=" ++ driverName

/-- Function `GenerateDockerOptions`, with the provisioner mutation made explicit:
the provider label is appended to `EngineOptions.Labels` first; then the
runtime version is queried (`DockerClientVersion`, an external call whose
result is the `versionResult` argument) and an error from it is returned;
otherwise the constant template (which parses) is executed on the context
and the rendered text is returned together with the daemon-options file
path.  The error result of the template execution is discarded by the
source (`t.Execute(&engineCfg, engineConfigContext)` with no check), and
for this constant template execution always succeeds, so the render step
never produces an error. -/
def GenerateDockerOptions (p : Provisioner) (dockerPort : Nat)
    (versionResult : Except String String) :
    Provisioner × Except String DockerOptions :=
  let p1 : Provisioner :=
    { p with engineOptions :=
        { p.engineOptions with
            labels := p.engineOptions.labels ++ [providerLabel p.driverName] } }
  match versionResult with
  | .error e => (p1, .error e)
  | .ok dockerVersion =>
    let ctx : EngineConfigContext :=
      { dockerPort := dockerPort
        authOptions := p1.authOptions
        engineOptions := p1.engineOptions }
    (p1, .ok { engineOptions := renderEngineConfig (daemonArg dockerVersion) ctx
               engineOptionsPath := p1.daemonOptionsFile })

/-- The configuration text of a `GenerateDockerOptions` result, when the
call succeeded. -/
def renderedText (r : Provisioner × Except String DockerOptions) : Option String :=
  match r.2 with
  | .ok d => some d.engineOptions
  | .error _ => none

/-- The state-updating part of `GenerateDockerOptions` alone. -/
def generateStep (dockerPort : Nat) (versionResult : Except String String)
    (p : Provisioner) : Provisioner :=
  (GenerateDockerOptions p dockerPort versionResult).1

/-- The three assignments at the top of `Provision`:
`provisioner.SwarmOptions = swarmOptions`, `provisioner.AuthOptions =
authOptions`, `provisioner.EngineOptions = engineOptions`. -/
def provisionSetOptions (p : Provisioner) (swarmOptions : SwarmOptions)
    (authOptions : AuthOptions) (engineOptions : EngineOptions) : Provisioner :=
  { p with swarmOptions := swarmOptions
           authOptions := authOptions
           engineOptions := engineOptions }

/-! ## The provisioning sequence

`Provision` calls, in order: `SetHostname`, `makeDockerOptionsDir`,
`Package("containers-basic", Install)`, `setRemoteAuthOptions` (infallible
rewrite of the auth options), `ConfigureAuth`, `configureSwarm`, and
`Service("docker", Enable)`, returning the first error unchanged.  The leaf
steps are external collaborators; an oracle records each step's outcome and
the embedding reproduces the early-return control flow of `Provision`. -/

/-- The seven steps `Provision` performs, in source order. -/
inductive ProvisionStep where
  | setHostname
  | makeDockerOptionsDir
  | installBasePackage
  | setRemoteAuthOptions
  | configureAuth
  | configureSwarm
  | enableService
deriving DecidableEq, Repr

/-- Outcome oracle for the six fallible steps of `Provision`: `none` means
the step succeeds, `some e` means it fails with error `e`.  The auth-path
rewrite (`setRemoteAuthOptions`) returns no error in the source. -/
structure StepResults where
  setHostnameResult : Option String
  makeDockerOptionsDirResult : Option String
  installPackageResult : Option String
  configureAuthResult : Option String
  configureSwarmResult : Option String
  serviceEnableResult : Option String
deriving DecidableEq, Repr

/-- The full step sequence of a successful `Provision` run. -/
def provisionFullTrace : List ProvisionStep :=
  [.setHostname, .makeDockerOptionsDir, .installBasePackage,
   .setRemoteAuthOptions, .configureAuth, .configureSwarm, .enableService]

/-- The control flow of `Provision` over a step-outcome oracle: the list of
steps attempted, and the error returned (`none` on success).  Each `if err
!= nil { return err }` of the source becomes a match that stops the
sequence and surfaces the step's error unchanged. -/
def Provision (r : StepResults) : List ProvisionStep × Option String :=
  match r.setHostnameResult with
  | some e => ([.setHostname], some e)
  | none =>
    match r.makeDockerOptionsDirResult with
    | some e => ([.setHostname, .makeDockerOptionsDir], some e)
    | none =>
      match r.installPackageResult with
      | some e => ([.setHostname, .makeDockerOptionsDir, .installBasePackage], some e)
      | none =>
        match r.configureAuthResult with
        | some e =>
          ([.setHostname, .makeDockerOptionsDir, .installBasePackage,
            .setRemoteAuthOptions, .configureAuth], some e)
        | none =>
          match r.configureSwarmResult with
          | some e =>
            ([.setHostname, .makeDockerOptionsDir, .installBasePackage,
              .setRemoteAuthOptions, .configureAuth, .configureSwarm], some e)
          | none =>
            match r.serviceEnableResult with
            | some e => (provisionFullTrace, some e)
            | none => (provisionFullTrace, none)

/-- The first error in the order the steps run, each error kept unchanged. -/
def firstStepError (r : StepResults) : Option String :=
  r.setHostnameResult <|> r.makeDockerOptionsDirResult <|> r.installPackageResult
    <|> r.configureAuthResult <|> r.configureSwarmResult <|> r.serviceEnableResult

/-! ## The lock-retry executor

`Package` ends in `return waitForLock(provisioner, command)`; `waitForLock`
is outside this fragment. -/

/-- The distinguishable outcomes of one remote package-manager invocation:
success, a failure carrying the package-manager-lock signature, or any
other failure. -/
inductive RunResult where
  | success (output : String)
  | lockContention (message : String)
  | otherError (message : String)
deriving DecidableEq, Repr

/-- Retry core: `k` is the index of the next attempt, `fuel` the number of
retries still allowed after it.  Returns the final result and the total
number of invocations made. -/
def runWithLockRetryAux (executor : Nat → RunResult) : Nat → Nat → RunResult × Nat
  | k, 0 => (executor k, k + 1)
  | k, fuel + 1 =>
    match executor k with
    | .lockContention _ => runWithLockRetryAux executor (k + 1) fuel
    | r => (r, k + 1)

/-- Modelled from the spec: the missing `waitForLock` lock-retry executor
("if the result indicates the package manager's lock is held by another
process the call is retried after a bounded wait, up to a fixed retry
ceiling; exceeding the ceiling surfaces the last error; non-lock errors are
surfaced immediately without retry").  `executor i` is the remote outcome of
attempt `i`; the bounded wait between attempts has no observable effect in
the embedding.  Returns the final result and the number of invocations. -/
def runWithLockRetry (ceiling : Nat) (executor : Nat → RunResult) : RunResult × Nat :=
  runWithLockRetryAux executor 0 (ceiling - 1)

/-- Function `Package`: build the command from the action and the (aliased) name and
run it through the lock-retry executor. -/
def Package (ceiling : Nat) (executor : String → Nat → RunResult)
    (name : String) (action : PackageAction) : RunResult × Nat :=
  runWithLockRetry ceiling (executor (packageCommand name action))

/-! ## Concrete values used by witnesses and counterexamples -/

/-- A representative fully-populated provisioner state. -/
def pEx : Provisioner :=
  { driverName := "virtualbox"
    authOptions := { caCertRemotePath := "/var/lib/boot2docker/ca.pem"
                     serverCertRemotePath := "/var/lib/boot2docker/server.pem"
                     serverKeyRemotePath := "/var/lib/boot2docker/server-key.pem" }
    engineOptions := { labels := [], insecureRegistry := [], registryMirror := [],
                       arbitraryFlags := [], env := [] }
    swarmOptions := { isSwarm := false }
    daemonOptionsFile := "/etc/systemd/system/docker.service.d/10-machine.conf" }

/-- A provisioner state whose context is incomplete: all three required
remote auth paths are missing (empty). -/
def pIncomplete : Provisioner :=
  { driverName := "virtualbox"
    authOptions := { caCertRemotePath := ""
                     serverCertRemotePath := ""
                     serverKeyRemotePath := "" }
    engineOptions := { labels := [], insecureRegistry := [], registryMirror := [],
                       arbitraryFlags := [], env := [] }
    swarmOptions := { isSwarm := false }
    daemonOptionsFile := "/etc/systemd/system/docker.service.d/10-machine.conf" }

/-- A second provisioner state with the same driver name as `pEx` but a
different daemon-options path and pre-existing mutated labels. -/
def pEx2 : Provisioner :=
  { driverName := "virtualbox"
    authOptions := { caCertRemotePath := "/old/ca.pem"
                     serverCertRemotePath := "/old/server.pem"
                     serverKeyRemotePath := "/old/server-key.pem" }
    engineOptions := { labels := ["provider=virtualbox", "provider=virtualbox"],
                       insecureRegistry := ["old.example:5000"], registryMirror := [],
                       arbitraryFlags := [], env := [] }
    swarmOptions := { isSwarm := true }
    daemonOptionsFile := "/etc/systemd/system/docker.service.d/20-machine.conf" }

/-- Step oracle in which only the swarm-configuration step fails. -/
def swarmFailResults : StepResults :=
  { setHostnameResult := none
    makeDockerOptionsDirResult := none
    installPackageResult := none
    configureAuthResult := none
    configureSwarmResult := some "swarm join failed"
    serviceEnableResult := none }

/-- An executor that reports lock contention on the first two attempts and
then succeeds. -/
def lockTwiceExecutor : Nat → RunResult :=
  fun i => if i < 2 then .lockContention "swupd lock held" else .success "ok"

end ClearLinux

namespace ClearLinux

/-! ## Helper lemmas: the decimal conversion -/

theorem toNat_decDigitChar (m : Nat) (h : m < 10) :
    (decDigitChar m).toNat = 48 + m := by
  interval_cases m <;> decide

theorem isDigit_decDigitChar (m : Nat) (h : m < 10) :
    (decDigitChar m).isDigit = true := by
  interval_cases m <;> decide

theorem decDigitChar_ne_zero (m : Nat) (h0 : 0 < m) (h : m < 10) :
    decDigitChar m ≠ '0' := by
  interval_cases m <;> decide

theorem natDecimalAux_ne_nil (fuel n : Nat) (acc : List Char)
    (hf : n < fuel) : natDecimalAux fuel n acc ≠ [] := by
  induction fuel generalizing n acc with
  | zero => omega
  | succ fuel ih =>
    rw [natDecimalAux]
    by_cases h : n < 10
    · simp [h]
    · simp only [if_neg h]
      exact ih (n / 10) _ (by omega)

theorem natDecimalAux_append (fuel n : Nat) (acc : List Char)
    (hf : n < fuel) :
    natDecimalAux fuel n acc = natDecimalAux fuel n [] ++ acc := by
  induction fuel generalizing n acc with
  | zero => omega
  | succ fuel ih =>
    rw [natDecimalAux, natDecimalAux]
    by_cases h : n < 10
    · simp [h]
    · simp only [if_neg h]
      rw [ih (n / 10) _ (by omega), ih (n / 10) [decDigitChar (n % 10)] (by omega),
        List.append_assoc]
      rfl

theorem foldl_digitsVal (l : List Char) (a : Nat) :
    l.foldl (fun a c => a * 10 + decDigitVal c) a
      = a * 10 ^ l.length + digitsVal l := by
  induction l generalizing a with
  | nil => simp [digitsVal]
  | cons c cs ih =>
    simp only [List.foldl_cons, List.length_cons, digitsVal]
    rw [ih (a * 10 + decDigitVal c), ih (0 * 10 + decDigitVal c)]
    ring

theorem digitsVal_natDecimalAux (fuel n : Nat) (hf : n < fuel) :
    digitsVal (natDecimalAux fuel n []) = n := by
  induction fuel generalizing n with
  | zero => omega
  | succ fuel ih =>
    rw [natDecimalAux]
    by_cases h : n < 10
    · simp [if_pos h, digitsVal, decDigitVal, toNat_decDigitChar (n % 10) (by omega)]
      omega
    · simp only [if_neg h]
      rw [natDecimalAux_append fuel (n / 10) _ (by omega)]
      unfold digitsVal
      rw [List.foldl_append]
      have hv := ih (n / 10) (by omega)
      unfold digitsVal at hv
      rw [hv]
      simp [decDigitVal, toNat_decDigitChar (n % 10) (by omega)]
      omega

theorem head_natDecimalAux_ne_zero (fuel n : Nat) (acc : List Char)
    (hf : n < fuel) (hn : n ≠ 0) :
    (natDecimalAux fuel n acc).head? ≠ some '0' := by
  induction fuel generalizing n acc with
  | zero => omega
  | succ fuel ih =>
    rw [natDecimalAux]
    by_cases h : n < 10
    · simp only [if_pos h, List.head?_cons]
      intro hc
      exact decDigitChar_ne_zero (n % 10) (by omega) (by omega) (by injection hc)
    · simp only [if_neg h]
      exact ih (n / 10) _ (by omega) (by omega)

theorem all_isDigit_natDecimalAux (fuel n : Nat) (acc : List Char)
    (hf : n < fuel) (hacc : ∀ c ∈ acc, c.isDigit = true) :
    ∀ c ∈ natDecimalAux fuel n acc, c.isDigit = true := by
  induction fuel generalizing n acc with
  | zero => omega
  | succ fuel ih =>
    rw [natDecimalAux]
    by_cases h : n < 10
    · simp only [if_pos h]
      intro c hc
      rcases List.mem_cons.mp hc with hc | hc
      · subst hc; exact isDigit_decDigitChar (n % 10) (by omega)
      · exact hacc c hc
    · simp only [if_neg h]
      refine ih (n / 10) _ (by omega) ?_
      intro c hc
      rcases List.mem_cons.mp hc with hc | hc
      · subst hc; exact isDigit_decDigitChar (n % 10) (by omega)
      · exact hacc c hc

/-- The decimal rendering is faithful: reading the digit string back gives
the number, every character is a digit, and there is no leading zero. -/
theorem natDecimal_spec (n : Nat) :
    digitsVal (natDecimal n).data = n
    ∧ (∀ c ∈ (natDecimal n).data, c.isDigit = true)
    ∧ (n ≠ 0 → (natDecimal n).data.head? ≠ some '0') := by
  refine ⟨?_, ?_, ?_⟩
  · exact digitsVal_natDecimalAux (n + 1) n (by omega)
  · exact all_isDigit_natDecimalAux (n + 1) n [] (by omega) (by simp)
  · intro hn
    exact head_natDecimalAux_ne_zero (n + 1) n [] (by omega) hn

/-! ## Helper lemmas: the lock-retry executor -/

theorem runWithLockRetryAux_const_lock (m : String) (fuel k : Nat) :
    runWithLockRetryAux (fun _ => RunResult.lockContention m) k fuel
      = (.lockContention m, k + fuel + 1) := by
  induction fuel generalizing k with
  | zero => rfl
  | succ fuel ih =>
    rw [runWithLockRetryAux, ih (k + 1)]
    simp
    omega

/-! ## Claims C3, C4, C5 — the Package command builder -/

/-- C3: for every package name and every action, the command built by
`Package` is exactly "swupd ", the action fragment ("bundle-add" for Install
and Upgrade, "bundle-remove" for Purge, empty for Remove), a space, the
(possibly aliased) package name, and a trailing space. -/
theorem package_command_shape (name : String) :
    packageCommand name .install = "swupd " ++ "bundle-add" ++ " " ++ aliasPackageName name ++ " "
    ∧ packageCommand name .upgrade = "swupd " ++ "bundle-add" ++ " " ++ aliasPackageName name ++ " "
    ∧ packageCommand name .purge = "swupd " ++ "bundle-remove" ++ " " ++ aliasPackageName name ++ " "
    ∧ packageCommand name .remove = "swupd " ++ "" ++ " " ++ aliasPackageName name ++ " " :=
  ⟨rfl, rfl, rfl, rfl⟩

/-- C4: for the name "docker" with action Install or Upgrade, the command
contains "bundle-add" and the aliased bundle name "containers-basic" and
never contains "docker". -/
theorem package_docker_aliased :
    containsSubstr "bundle-add" (packageCommand "docker" .install) = true
    ∧ containsSubstr "containers-basic" (packageCommand "docker" .install) = true
    ∧ containsSubstr "docker" (packageCommand "docker" .install) = false
    ∧ containsSubstr "bundle-add" (packageCommand "docker" .upgrade) = true
    ∧ containsSubstr "containers-basic" (packageCommand "docker" .upgrade) = true
    ∧ containsSubstr "docker" (packageCommand "docker" .upgrade) = false := by
  refine ⟨?_, ?_, ?_, ?_, ?_, ?_⟩ <;> rfl

/-- C5: for every package name, the Remove action yields a command with an
empty action fragment: "swupd  <aliased name> " with two spaces and no verb. -/
theorem package_remove_empty_fragment (name : String) :
    packageCommand name .remove = "swupd " ++ " " ++ aliasPackageName name ++ " " :=
  rfl

/-! ## Claim C1 — regeneration is byte-identical for unchanged inputs -/

/-- C1: a second provisioning run re-enters `Provision`, which resets the
swarm, auth and engine options from its arguments before the configuration
is regenerated; for the same host (same driver name) and unchanged inputs
(same port, same options, same detected runtime version) the regenerated
configuration text is byte-identical, whatever state the previous run left
behind. -/
theorem regenerate_byte_identical (p1 p2 : Provisioner)
    (sw : SwarmOptions) (au : AuthOptions) (en : EngineOptions)
    (port : Nat) (vres : Except String String)
    (hdriver : p1.driverName = p2.driverName) :
    renderedText (GenerateDockerOptions (provisionSetOptions p1 sw au en) port vres)
      = renderedText (GenerateDockerOptions (provisionSetOptions p2 sw au en) port vres) := by
  cases vres with
  | error e => rfl
  | ok v => simp [renderedText, GenerateDockerOptions, provisionSetOptions, hdriver]

/-- Witness for C1: a fresh state and a state mutated by earlier runs, same
driver, same inputs. -/
theorem regenerate_byte_identical_witness :
    renderedText (GenerateDockerOptions
        (provisionSetOptions pEx pEx.swarmOptions pEx.authOptions pEx.engineOptions)
        2376 (Except.ok "1.12.0"))
      = renderedText (GenerateDockerOptions
        (provisionSetOptions pEx2 pEx.swarmOptions pEx.authOptions pEx.engineOptions)
        2376 (Except.ok "1.12.0")) :=
  regenerate_byte_identical pEx pEx2 pEx.swarmOptions pEx.authOptions pEx.engineOptions
    2376 (Except.ok "1.12.0") rfl

/-! ## Claim C2 — error behaviour of GenerateDockerOptions -/

/-- Counterexample to C2: with every required auth path missing (empty), the
source still returns a success result whose text substitutes the empty
paths (note the doubled spaces after `--tlscacert` and `--tlscert`); the
render step's error result is discarded (`t.Execute(&engineCfg, ...)` is
not checked), so no RenderError is ever surfaced. -/
theorem generate_succeeds_on_incomplete_context :
    ((GenerateDockerOptions pIncomplete 2376 (Except.ok "1.12.0")).2).isOk = true
    ∧ containsSubstr "--tlscacert  --tlscert  --tlskey "
        ((renderedText (GenerateDockerOptions pIncomplete 2376 (Except.ok "1.12.0"))).getD "")
      = true := by
  refine ⟨rfl, ?_⟩
  decide

/-- C2 as amended: `GenerateDockerOptions` fails exactly when the
runtime-version query fails, returning that error unchanged; the constant
template parses, the render error is discarded by the source, and every
call with a successful version query returns a success result, an
incomplete context included. -/
theorem generate_error_iff_version_error (p : Provisioner) (port : Nat) :
    (∀ e, (GenerateDockerOptions p port (Except.error e)).2 = Except.error e)
    ∧ (∀ v, ((GenerateDockerOptions p port (Except.ok v)).2).isOk = true) :=
  ⟨fun _ => rfl, fun _ => rfl⟩

/-! ## Claim C6 — the version-gated legacy subcommand -/

/-- C6: the rendered start command contains the legacy token "daemon"
exactly when the detected runtime version is not greater-than-or-equal
"1.12.0"; in particular "1.11.0" includes it while "1.12.0" and "1.12.1"
omit it (the boundary is inclusive at 1.12.0). -/
theorem generate_daemon_flag_boundary :
    (∀ v : String,
      containsSubstr "daemon"
          ((renderedText (GenerateDockerOptions pEx 2376 (Except.ok v))).getD "")
        = !greaterThanOrEqualTo v "1.12.0")
    ∧ greaterThanOrEqualTo "1.11.0" "1.12.0" = false
    ∧ greaterThanOrEqualTo "1.12.0" "1.12.0" = true
    ∧ greaterThanOrEqualTo "1.12.1" "1.12.0" = true := by
  refine ⟨?_, by decide, by decide, by decide⟩
  intro v
  show containsSubstr "daemon" (renderEngineConfig (daemonArg v)
      { dockerPort := 2376
        authOptions := pEx.authOptions
        engineOptions := { pEx.engineOptions with
          labels := pEx.engineOptions.labels ++ [providerLabel pEx.driverName] } })
    = !greaterThanOrEqualTo v "1.12.0"
  unfold daemonArg
  by_cases h : greaterThanOrEqualTo v "1.12.0" = true
  · rw [if_pos h, h]
    decide
  · have h' : greaterThanOrEqualTo v "1.12.0" = false := by
      revert h
      cases greaterThanOrEqualTo v "1.12.0" <;> simp
    rw [if_neg (by simp [h']), h']
    decide

/-! ## Claim C7 — structure and formatting of the rendered text -/

/-- C7: the rendered text iterates labels, insecure registries, registry
mirrors (and flags and environment entries) in the declaration order of the
context lists; the TCP port is rendered as a decimal integer with no
leading zero; and each environment entry is individually wrapped in double
quotes by the `%q` quoting. -/
theorem rendered_text_structure (p : Provisioner) (port : Nat) (ver : String) :
    renderedText (GenerateDockerOptions p port (Except.ok ver)) = some (
      "[Service]\nEnvironment=TMPDIR=/var/tmp\nExecStart=\nExecStart=/usr/bin/dockerd "
      ++ daemonArg ver
      ++ " --host=unix:///var/run/docker.sock --host=tcp://0.0.0.0:"
      ++ natDecimal port
      ++ " --tlsverify --tlscacert " ++ p.authOptions.caCertRemotePath
      ++ " --tlscert " ++ p.authOptions.serverCertRemotePath
      ++ " --tlskey " ++ p.authOptions.serverKeyRemotePath
      ++ String.join ((p.engineOptions.labels ++ [providerLabel p.driverName]).map
          (fun l => " --label " ++ l))
      ++ String.join (p.engineOptions.insecureRegistry.map
          (fun r => " --insecure-registry " ++ r))
      ++ String.join (p.engineOptions.registryMirror.map
          (fun m => " --registry-mirror " ++ m))
      ++ String.join (p.engineOptions.arbitraryFlags.map (fun f => " --" ++ f))
      ++ " \\$DOCKER_OPTS \\$DOCKER_OPT_BIP \\$DOCKER_OPT_MTU \\$DOCKER_OPT_IPMASQ\nEnvironment="
      ++ String.join (p.engineOptions.env.map (fun e => goQuote e ++ " "))
      ++ "\n")
    ∧ digitsVal (natDecimal port).data = port
    ∧ (∀ c ∈ (natDecimal port).data, c.isDigit = true)
    ∧ (port ≠ 0 → (natDecimal port).data.head? ≠ some '0')
    ∧ (∀ s : String, (goQuote s).data.head? = some '"'
        ∧ (goQuote s).data.getLast? = some '"') := by
  refine ⟨rfl, (natDecimal_spec port).1, (natDecimal_spec port).2.1,
    (natDecimal_spec port).2.2, ?_⟩
  intro s
  constructor
  · simp [goQuote]
  · simp only [goQuote, String.data_append]
    rw [List.getLast?_append_of_ne_nil]
    · rfl
    · simp

/-- Witness for C7 at a concrete port and environment entry. -/
theorem rendered_text_structure_witness :
    digitsVal (natDecimal 2376).data = 2376
    ∧ (natDecimal 2376).data.head? ≠ some '0'
    ∧ (goQuote "FOO=bar").data.head? = some '"' :=
  ⟨(rendered_text_structure pEx 2376 "1.12.0").2.1,
   (rendered_text_structure pEx 2376 "1.12.0").2.2.2.1 (by decide),
   ((rendered_text_structure pEx 2376 "1.12.0").2.2.2.2 "FOO=bar").1⟩

/-! ## Claim C8 — the provisioning sequence -/

/-- C8: `Provision` runs its steps in the fixed linear order, its attempted
steps always form a prefix of that order, it surfaces the first failing
step's error unchanged and attempts nothing after it; in particular a
failure of the swarm-configuration step stops the run with the first six
steps attempted and the service-enable step never executed. -/
theorem provision_step_order (r : StepResults) :
    (Provision r).1 <+: provisionFullTrace
    ∧ (Provision r).2 = firstStepError r
    ∧ (∀ e, r.setHostnameResult = none → r.makeDockerOptionsDirResult = none →
        r.installPackageResult = none → r.configureAuthResult = none →
        r.configureSwarmResult = some e →
        Provision r = ([.setHostname, .makeDockerOptionsDir, .installBasePackage,
          .setRemoteAuthOptions, .configureAuth, .configureSwarm], some e)
        ∧ ProvisionStep.enableService ∉ (Provision r).1) := by
  refine ⟨?_, ?_, ?_⟩
  · obtain ⟨a, b, c, d, e', f⟩ := r
    cases a <;> cases b <;> cases c <;> cases d <;> cases e' <;> cases f <;>
      simp [Provision, provisionFullTrace]
  · obtain ⟨a, b, c, d, e', f⟩ := r
    cases a <;> cases b <;> cases c <;> cases d <;> cases e' <;> cases f <;>
      simp [Provision, firstStepError, provisionFullTrace]
  · intro e h1 h2 h3 h4 h5
    refine ⟨?_, ?_⟩ <;> simp [Provision, h1, h2, h3, h4, h5]

/-- Witness for C8: the oracle in which only the swarm step fails. -/
theorem provision_step_order_witness :
    Provision swarmFailResults = ([.setHostname, .makeDockerOptionsDir,
        .installBasePackage, .setRemoteAuthOptions, .configureAuth, .configureSwarm],
        some "swarm join failed")
    ∧ ProvisionStep.enableService ∉ (Provision swarmFailResults).1 :=
  (provision_step_order swarmFailResults).2.2 "swarm join failed" rfl rfl rfl rfl rfl

/-! ## Claim C9 — the lock-retry policy -/

/-- C9: the lock-retry executor invoked by `Package` retries on the lock
signature up to the configured ceiling and surfaces the last error when the
ceiling is exceeded; a non-lock error is surfaced immediately after one
invocation; an executor that reports lock contention exactly twice and then
succeeds makes the call succeed after exactly three invocations; and
`Package` runs the built command through this executor. -/
theorem lock_retry_policy :
    (∀ ceiling : Nat, 3 ≤ ceiling →
      runWithLockRetry ceiling lockTwiceExecutor = (.success "ok", 3))
    ∧ (∀ (ceiling : Nat) (m : String), 1 ≤ ceiling →
      runWithLockRetry ceiling (fun _ => .lockContention m) = (.lockContention m, ceiling))
    ∧ (∀ (ceiling : Nat) (executor : Nat → RunResult) (m : String),
        executor 0 = .otherError m →
        runWithLockRetry ceiling executor = (.otherError m, 1))
    ∧ (∀ (ceiling : Nat) (executor : String → Nat → RunResult)
        (name : String) (action : PackageAction),
        Package ceiling executor name action
          = runWithLockRetry ceiling (executor (packageCommand name action))) := by
  refine ⟨?_, ?_, ?_, fun _ _ _ _ => rfl⟩
  · intro ceiling hc
    obtain ⟨m, rfl⟩ : ∃ m, ceiling = m + 3 := ⟨ceiling - 3, by omega⟩
    show runWithLockRetryAux lockTwiceExecutor 0 (m + 2) = (.success "ok", 3)
    rw [runWithLockRetryAux]
    simp only [lockTwiceExecutor]
    norm_num
    rw [runWithLockRetryAux]
    norm_num
    cases m with
    | zero => rfl
    | succ k =>
      rw [runWithLockRetryAux]
      simp [lockTwiceExecutor]
  · intro ceiling m hc
    show runWithLockRetryAux (fun _ => RunResult.lockContention m) 0 (ceiling - 1)
      = (.lockContention m, ceiling)
    rw [runWithLockRetryAux_const_lock]
    congr 1
    omega
  · intro ceiling executor m h
    show runWithLockRetryAux executor 0 (ceiling - 1) = (.otherError m, 1)
    cases hc : ceiling - 1 with
    | zero => rw [runWithLockRetryAux, h]
    | succ k =>
      rw [runWithLockRetryAux, h]

/-- Witness for C9 at ceiling 5. -/
theorem lock_retry_policy_witness :
    runWithLockRetry 5 lockTwiceExecutor = (.success "ok", 3)
    ∧ runWithLockRetry 5 (fun _ => .lockContention "db locked")
        = (.lockContention "db locked", 5)
    ∧ runWithLockRetry 5 (fun _ => .otherError "no network") = (.otherError "no network", 1) :=
  ⟨lock_retry_policy.1 5 (by omega),
   lock_retry_policy.2.1 5 "db locked" (by omega),
   lock_retry_policy.2.2.1 5 (fun _ => .otherError "no network") "no network" rfl⟩

/-! ## Claim C10 — the provider-label mutation -/

/-- C10: every call to `GenerateDockerOptions` appends the label
"provider=<driver name>" to the provisioner's `EngineOptions.Labels` before
rendering (also when the version query fails), so `n` successive calls
leave `n` copies of the provider label in that field. -/
theorem generate_mutates_labels (p : Provisioner) (port : Nat)
    (vres : Except String String) (n : Nat) :
    ((GenerateDockerOptions p port vres).1.engineOptions.labels
        = p.engineOptions.labels ++ [providerLabel p.driverName])
    ∧ ((generateStep port vres)^[n] p).engineOptions.labels
        = p.engineOptions.labels ++ List.replicate n (providerLabel p.driverName) := by
  constructor
  · cases vres <;> rfl
  · induction n generalizing p with
    | zero => simp
    | succ n ih =>
      rw [Function.iterate_succ_apply]
      have hstep : generateStep port vres p
          = { p with engineOptions := { p.engineOptions with
              labels := p.engineOptions.labels ++ [providerLabel p.driverName] } } := by
        cases vres <;> rfl
      rw [hstep, ih]
      simp [List.replicate_succ]

end ClearLinux
